import Mathlib

/-!
Verification of the `circular_queue` template class (src/circular_queue.h):
a bounded MPMC circular queue coordinated by per-slot ticket locks and a
per-slot `has_data` handshake flag.

The embedding is a shallow one, single-threaded: every field of the C++
object becomes a field of a Lean structure; 32-bit unsigned counters are
Nat values kept below 2^32 by taking `% 2^32` exactly where the machine
would wrap (atomic_inc32 and the `++`/`-` operators on uint32).  A spin
loop (`while (cond) wait();`) whose condition no other thread can change
either falls through at once or never exits; the latter is the `blocked`
outcome.  `BOOST_ASSERT` (active in debug builds, a no-op under NDEBUG)
is recorded in the `assertOk` output of the producer operations; the rest
of the computation proceeds regardless, as it does under NDEBUG.
-/

namespace CQ

/-- 2^32: the modulus of the `boost::uint32_t` counters. -/
def U32 : Nat := 4294967296

/-- The state of one `circular_queue<T, size>` object (src/circular_queue.h,
lines 303-329).  Arrays are total functions from `Nat`; only indices below
`N` are ever read or written (every index used is `pos % N`). -/
structure circular_queue (T : Type) (N : Nat) where
  /-- `T mData[size]` — queue items. -/
  mData : Nat → T
  /-- `volatile bool mHasData[size]` — signal between push and pop threads. -/
  mHasData : Nat → Bool
  /-- `volatile boost::uint32_t mWritePos` — push position. -/
  mWritePos : Nat
  /-- `volatile boost::uint32_t mReadPos` — pop position. -/
  mReadPos : Nat
  /-- `volatile bool mNoMorePush`. -/
  mNoMorePush : Bool
  /-- `volatile boost::uint32_t mPushQueue[size]` — get push ticket here. -/
  mPushQueue : Nat → Nat
  /-- `volatile boost::uint32_t mPushTicket[size]` — current active push ticket. -/
  mPushTicket : Nat → Nat
  /-- `volatile boost::uint32_t mPopQueue[size]` — get pop ticket here. -/
  mPopQueue : Nat → Nat
  /-- `volatile boost::uint32_t mPopTicket[size]` — current active pop ticket. -/
  mPopTicket : Nat → Nat

/-- The constructor (lines 100-115): all flags false, all tickets and both
position counters zero.  `d` stands for the default-initialized payload
cells of the C++ array `T mData[size]`. -/
def circular_queue.init (T : Type) (N : Nat) (d : T) : circular_queue T N where
  mData := fun _ => d
  mHasData := fun _ => false
  mWritePos := 0
  mReadPos := 0
  mNoMorePush := false
  mPushQueue := fun _ => 0
  mPushTicket := fun _ => 0
  mPopQueue := fun _ => 0
  mPopTicket := fun _ => 0

/-- The construction-time capacity check (line 118):
`BOOST_STATIC_ASSERT( (0xFFFFFFFFu % size) == (size - 1) )`.
For `size = 0` the C++ constant expression divides by zero and the program
is ill-formed, i.e. the check fails; the Nat model agrees
(`0xFFFFFFFF % 0 = 0xFFFFFFFF ≠ 0 - 1 = 0`). -/
def capacityCheck (size : Nat) : Bool :=
  0xFFFFFFFF % size == size - 1

/-- Outcome of a producer operation: `pushed` when the call returns,
`blocked` when a wait loop can never be exited. -/
inductive PushOutcome where
  | blocked
  | pushed
deriving DecidableEq

/-- Result of `push`/`pushUnsafe`: the `BOOST_ASSERT(!mNoMorePush)` verdict,
the outcome, and the state of the object (at the point of return, or at the
point where the operation blocks forever). -/
structure PushResult (T : Type) (N : Nat) where
  assertOk : Bool
  outcome : PushOutcome
  state : circular_queue T N

/-- Outcome of a consumer operation: success carrying the popped value,
`exhausted` (the `return false` paths), or `blocked`. -/
inductive PopOutcome (T : Type) where
  | blocked
  | exhausted
  | success (v : T)
deriving DecidableEq

/-- Result of `pop`/`popUnsafe`. -/
structure PopResult (T : Type) (N : Nat) where
  outcome : PopOutcome T
  state : circular_queue T N

/-- `void push(const T &item)` (lines 164-190).
`atomic_inc32(&mWritePos)` returns the old value and stores the wrapped
increment; `mypos %= size` selects the slot; `atomic_inc32(&mPushQueue[mypos])`
draws a ticket.  The loop `while (ticket != mPushTicket[mypos])` blocks
forever when the ticket is not being served (no other thread runs); the loop
`while (mHasData[mypos])` blocks forever when the slot is full.  Otherwise
the item is published and the serving ticket advances. -/
def push {T : Type} {N : Nat} (item : T) (q : circular_queue T N) : PushResult T N :=
  let assertOk := !q.mNoMorePush
  let mypos := q.mWritePos
  let q1 : circular_queue T N := { q with mWritePos := (q.mWritePos + 1) % U32 }
  let s := mypos % N
  let ticket := q1.mPushQueue s
  let q2 : circular_queue T N :=
    { q1 with mPushQueue := Function.update q1.mPushQueue s ((ticket + 1) % U32) }
  if ticket = q2.mPushTicket s then
    if q2.mHasData s then
      { assertOk := assertOk, outcome := .blocked, state := q2 }
    else
      { assertOk := assertOk, outcome := .pushed,
        state :=
          { q2 with
            mData := Function.update q2.mData s item,
            mHasData := Function.update q2.mHasData s true,
            mPushTicket := Function.update q2.mPushTicket s ((q2.mPushTicket s + 1) % U32) } }
  else
    { assertOk := assertOk, outcome := .blocked, state := q2 }

/-- `void pushUnsafe(const T &item)` (lines 139-156): the single-producer
variant; plain `mWritePos++`, no tickets, waits only on `mHasData[mypos]`. -/
def pushUnsafe {T : Type} {N : Nat} (item : T) (q : circular_queue T N) : PushResult T N :=
  let assertOk := !q.mNoMorePush
  let mypos := q.mWritePos
  let q1 : circular_queue T N := { q with mWritePos := (q.mWritePos + 1) % U32 }
  let s := mypos % N
  if q1.mHasData s then
    { assertOk := assertOk, outcome := .blocked, state := q1 }
  else
    { assertOk := assertOk, outcome := .pushed,
      state :=
        { q1 with
          mData := Function.update q1.mData s item,
          mHasData := Function.update q1.mHasData s true } }

/-- `bool pop(T &item)` (lines 200-228).  Reserves a position, draws a
ticket.  The loop `while (ticket != mPopTicket[mypos])` checks `mNoMorePush`
each iteration and `return false`s when set, otherwise (single-threaded)
blocks forever; likewise the loop `while (!mHasData[mypos])`.  On success
the item is copied out, `mHasData[mypos]` cleared and the serving ticket
advanced. -/
def pop {T : Type} {N : Nat} (q : circular_queue T N) : PopResult T N :=
  let mypos := q.mReadPos
  let q1 : circular_queue T N := { q with mReadPos := (q.mReadPos + 1) % U32 }
  let s := mypos % N
  let ticket := q1.mPopQueue s
  let q2 : circular_queue T N :=
    { q1 with mPopQueue := Function.update q1.mPopQueue s ((ticket + 1) % U32) }
  if ticket = q2.mPopTicket s then
    if q2.mHasData s then
      { outcome := .success (q2.mData s),
        state :=
          { q2 with
            mHasData := Function.update q2.mHasData s false,
            mPopTicket := Function.update q2.mPopTicket s ((q2.mPopTicket s + 1) % U32) } }
    else if q2.mNoMorePush then
      { outcome := .exhausted, state := q2 }
    else
      { outcome := .blocked, state := q2 }
  else if q2.mNoMorePush then
    { outcome := .exhausted, state := q2 }
  else
    { outcome := .blocked, state := q2 }

/-- `bool popUnsafe(T &item)` (lines 253-271): the single-consumer variant;
plain `mReadPos++`, no tickets, waits only on `!mHasData[mypos]` with the
`mNoMorePush` escape. -/
def popUnsafe {T : Type} {N : Nat} (q : circular_queue T N) : PopResult T N :=
  let mypos := q.mReadPos
  let q1 : circular_queue T N := { q with mReadPos := (q.mReadPos + 1) % U32 }
  let s := mypos % N
  if q1.mHasData s then
    { outcome := .success (q1.mData s),
      state := { q1 with mHasData := Function.update q1.mHasData s false } }
  else if q1.mNoMorePush then
    { outcome := .exhausted, state := q1 }
  else
    { outcome := .blocked, state := q1 }

/-- `void signalNoMorePush()` (lines 291-293). -/
def signalNoMorePush {T : Type} {N : Nat} (q : circular_queue T N) : circular_queue T N :=
  { q with mNoMorePush := true }

/-- `int getQueueLength()` (lines 300-302): `(int)(mWritePos - mReadPos)`.
The subtraction wraps in 32-bit unsigned arithmetic; the cast to `int`
reinterprets the 32-bit pattern as two's-complement signed. -/
def getQueueLength {T : Type} {N : Nat} (q : circular_queue T N) : Int :=
  let d := (q.mWritePos + U32 - q.mReadPos) % U32
  if d < 2 ^ 31 then (d : Int) else (d : Int) - (U32 : Int)

/-- One call to a state-changing operation of the queue, for reasoning about
sequences of calls. -/
inductive Op (T : Type) where
  | opPush (v : T)
  | opPushUnsafe (v : T)
  | opPop
  | opPopUnsafe
  | opSignal

/-- The state of the queue after one operation entry (for a call that blocks,
the state at the point where it blocks — the position counter has already
been incremented, as the fetch-and-increment is the first action of every
operation). -/
def step {T : Type} {N : Nat} (q : circular_queue T N) : Op T → circular_queue T N
  | .opPush v => (push v q).state
  | .opPushUnsafe v => (pushUnsafe v q).state
  | .opPop => (pop q).state
  | .opPopUnsafe => (popUnsafe q).state
  | .opSignal => signalNoMorePush q

/-- The state after a sequence of operation entries. -/
def run {T : Type} {N : Nat} (q : circular_queue T N) : List (Op T) → circular_queue T N
  | [] => q
  | op :: ops => run (step q op) ops

/-- How many producer-operation entries (`push`, `pushUnsafe`) a sequence has. -/
def producerCount {T : Type} : List (Op T) → Nat
  | [] => 0
  | .opPush _ :: ops => producerCount ops + 1
  | .opPushUnsafe _ :: ops => producerCount ops + 1
  | _ :: ops => producerCount ops

/-- How many consumer-operation entries (`pop`, `popUnsafe`) a sequence has. -/
def consumerCount {T : Type} : List (Op T) → Nat
  | [] => 0
  | .opPop :: ops => consumerCount ops + 1
  | .opPopUnsafe :: ops => consumerCount ops + 1
  | _ :: ops => consumerCount ops

/-- By how much one operation entry advances `mWritePos`. -/
def producerInc {T : Type} : Op T → Nat
  | .opPush _ => 1
  | .opPushUnsafe _ => 1
  | _ => 0

/-- By how much one operation entry advances `mReadPos`. -/
def consumerInc {T : Type} : Op T → Nat
  | .opPop => 1
  | .opPopUnsafe => 1
  | _ => 0

/-- A freshly constructed `circular_queue<int, 4>` (payload cells zero). -/
def q0 : circular_queue Nat 4 := circular_queue.init Nat 4 0

/-- `q0` after `signalNoMorePush()`: closed and empty. -/
def qClosed : circular_queue Nat 4 := signalNoMorePush q0

/-- `q0` after `push(7)`: one published item in slot 0. -/
def qOne : circular_queue Nat 4 := (push 7 q0).state

/-- A queue state in which 2^31 + 1 more consumer entries than producer
entries have reserved positions (reachable from `q0` by 2^31 + 1 pop
entries): `mWritePos = 0`, `mReadPos = 2^31 + 1`. -/
def qManyPops : circular_queue Nat 4 := { q0 with mReadPos := 2 ^ 31 + 1 }

/-- A queue state in which producers are stalled against the full ring:
`mWritePos = 9`, `mReadPos = 0` (reachable from `q0` by nine push
entries, five of them blocked). -/
def qStalled : circular_queue Nat 4 := { q0 with mWritePos := 9 }

/-- Scenario S1, step 1: `push(1)` on a fresh `circular_queue<int, 4>`. -/
def rtPush1 : PushResult Nat 4 := push 1 q0

/-- Scenario S1, step 2: `push(2)`. -/
def rtPush2 : PushResult Nat 4 := push 2 rtPush1.state

/-- Scenario S1, step 3: `push(3)`. -/
def rtPush3 : PushResult Nat 4 := push 3 rtPush2.state

/-- Scenario S1, step 4: first `pop()`. -/
def rtPop1 : PopResult Nat 4 := pop rtPush3.state

/-- Scenario S1, step 5: second `pop()`. -/
def rtPop2 : PopResult Nat 4 := pop rtPop1.state

/-- Scenario S1, step 6: third `pop()`. -/
def rtPop3 : PopResult Nat 4 := pop rtPop2.state

/-- Scenario S1, step 7: `signalNoMorePush()`, then one more `pop()`. -/
def rtPop4 : PopResult Nat 4 := pop (signalNoMorePush rtPop3.state)

/-- `push` advances `mWritePos` by one (wrapped) on every entry, whatever
the outcome: the fetch-and-increment is its first action. -/
theorem push_writePos {T : Type} {N : Nat} (item : T) (q : circular_queue T N) :
    (push item q).state.mWritePos = (q.mWritePos + 1) % U32 := by
  simp only [push]
  split_ifs <;> rfl

/-- `push` never touches `mReadPos`. -/
theorem push_readPos {T : Type} {N : Nat} (item : T) (q : circular_queue T N) :
    (push item q).state.mReadPos = q.mReadPos := by
  simp only [push]
  split_ifs <;> rfl

/-- `pushUnsafe` advances `mWritePos` by one (wrapped) on every entry. -/
theorem pushUnsafe_writePos {T : Type} {N : Nat} (item : T) (q : circular_queue T N) :
    (pushUnsafe item q).state.mWritePos = (q.mWritePos + 1) % U32 := by
  simp only [pushUnsafe]
  split_ifs <;> rfl

/-- `pushUnsafe` never touches `mReadPos`. -/
theorem pushUnsafe_readPos {T : Type} {N : Nat} (item : T) (q : circular_queue T N) :
    (pushUnsafe item q).state.mReadPos = q.mReadPos := by
  simp only [pushUnsafe]
  split_ifs <;> rfl

/-- `pop` advances `mReadPos` by one (wrapped) on every entry, whatever the
outcome. -/
theorem pop_readPos {T : Type} {N : Nat} (q : circular_queue T N) :
    (pop q).state.mReadPos = (q.mReadPos + 1) % U32 := by
  simp only [pop]
  split_ifs <;> rfl

/-- `pop` never touches `mWritePos`. -/
theorem pop_writePos {T : Type} {N : Nat} (q : circular_queue T N) :
    (pop q).state.mWritePos = q.mWritePos := by
  simp only [pop]
  split_ifs <;> rfl

/-- `popUnsafe` advances `mReadPos` by one (wrapped) on every entry. -/
theorem popUnsafe_readPos {T : Type} {N : Nat} (q : circular_queue T N) :
    (popUnsafe q).state.mReadPos = (q.mReadPos + 1) % U32 := by
  simp only [popUnsafe]
  split_ifs <;> rfl

/-- `popUnsafe` never touches `mWritePos`. -/
theorem popUnsafe_writePos {T : Type} {N : Nat} (q : circular_queue T N) :
    (popUnsafe q).state.mWritePos = q.mWritePos := by
  simp only [popUnsafe]
  split_ifs <;> rfl

/-- `producerCount` over a cons, via the per-operation increment. -/
theorem producerCount_cons {T : Type} (op : Op T) (ops : List (Op T)) :
    producerCount (op :: ops) = producerCount ops + producerInc op := by
  cases op <;> rfl

/-- `consumerCount` over a cons, via the per-operation increment. -/
theorem consumerCount_cons {T : Type} (op : Op T) (ops : List (Op T)) :
    consumerCount (op :: ops) = consumerCount ops + consumerInc op := by
  cases op <;> rfl

/-- One operation entry moves the two position counters by exactly its
producer/consumer increment (mod 2^32), and keeps them below 2^32. -/
theorem step_positions {T : Type} {N : Nat} (q : circular_queue T N) (op : Op T) :
    (step q op).mWritePos % U32 = (q.mWritePos + producerInc op) % U32 ∧
    (step q op).mReadPos % U32 = (q.mReadPos + consumerInc op) % U32 ∧
    (q.mWritePos < U32 → (step q op).mWritePos < U32) ∧
    (q.mReadPos < U32 → (step q op).mReadPos < U32) := by
  cases op <;>
    simp only [step, producerInc, consumerInc, push_writePos, push_readPos,
      pushUnsafe_writePos, pushUnsafe_readPos, pop_writePos, pop_readPos,
      popUnsafe_writePos, popUnsafe_readPos, signalNoMorePush, U32] <;>
    omega

/-- A sequence of operation entries moves each position counter by the
number of entries on its side (mod 2^32), preserving the 2^32 bound. -/
theorem run_positions {T : Type} {N : Nat} (ops : List (Op T)) (q : circular_queue T N) :
    (run q ops).mWritePos % U32 = (q.mWritePos + producerCount ops) % U32 ∧
    (run q ops).mReadPos % U32 = (q.mReadPos + consumerCount ops) % U32 ∧
    (q.mWritePos < U32 → (run q ops).mWritePos < U32) ∧
    (q.mReadPos < U32 → (run q ops).mReadPos < U32) := by
  induction ops generalizing q with
  | nil =>
    refine ⟨?_, ?_, fun h => h, fun h => h⟩ <;> simp [run, producerCount, consumerCount]
  | cons op ops ih =>
    obtain ⟨hw, hr, hwb, hrb⟩ := step_positions q op
    obtain ⟨ihw, ihr, ihwb, ihrb⟩ := ih (step q op)
    rw [producerCount_cons, consumerCount_cons]
    simp only [run, U32] at *
    refine ⟨by omega, by omega, fun h => ihwb (hwb h), fun h => ihrb (hrb h)⟩

/-- C1: single-threaded round trip on a queue of capacity N = 4: pushing
1, 2, 3 via `push` (each call publishing, with the no-more-push assertion
passing) and popping three times via `pop` yields 1, 2, 3 in that order;
after `signalNoMorePush` one further `pop` returns the exhausted outcome
(the boolean-flag `pop` returns false). -/
theorem single_threaded_round_trip :
    (rtPush1.assertOk = true ∧ rtPush1.outcome = .pushed) ∧
    (rtPush2.assertOk = true ∧ rtPush2.outcome = .pushed) ∧
    (rtPush3.assertOk = true ∧ rtPush3.outcome = .pushed) ∧
    rtPop1.outcome = .success 1 ∧ rtPop2.outcome = .success 2 ∧
    rtPop3.outcome = .success 3 ∧ rtPop4.outcome = .exhausted := by
  decide

/-- C2: `pop` and `popUnsafe` return false (the exhausted outcome) only
when `mNoMorePush` is true at the moment of return (the flag at entry,
which neither operation modifies); when the queue has not been closed,
any return from these operations is a success carrying a value (in the
single-threaded semantics the only other possibility is to keep
waiting, i.e. the `blocked` outcome). -/
theorem pop_false_only_after_close (T : Type) (N : Nat) (q : circular_queue T N) :
    ((pop q).outcome = .exhausted → q.mNoMorePush = true) ∧
    ((popUnsafe q).outcome = .exhausted → q.mNoMorePush = true) ∧
    (q.mNoMorePush = false →
      ((pop q).outcome = .blocked ∨ ∃ v, (pop q).outcome = .success v) ∧
      ((popUnsafe q).outcome = .blocked ∨ ∃ v, (popUnsafe q).outcome = .success v)) := by
  refine ⟨?_, ?_, ?_⟩
  · intro h
    simp only [pop] at h
    split_ifs at h <;> simp_all
  · intro h
    simp only [popUnsafe] at h
    split_ifs at h
    all_goals simp_all
  · intro h
    constructor
    · simp only [pop]
      split_ifs <;> simp_all
    · simp only [popUnsafe]
      split_ifs <;> simp_all

/-- Witness for C2 at concrete inputs: `qClosed` (where `pop` returns
exhausted) and the open queue `q0`. -/
theorem pop_false_only_after_close_witness :
    qClosed.mNoMorePush = true ∧
    ((pop q0).outcome = .blocked ∨ ∃ v, (pop q0).outcome = .success v) :=
  ⟨(pop_false_only_after_close Nat 4 qClosed).1 (by decide),
   ((pop_false_only_after_close Nat 4 q0).2.2 (by decide)).1⟩

/-- C3: when `push`'s ticket is served at the reserved slot
`s = mWritePos % N` (the value of `mWritePos` before the fetch-and-increment,
mod N), the queue-full wait spins on `mHasData` at that same slot `s`:
the call blocks exactly when `mHasData[s]` is true, and it publishes the
item into slot `s` only once `mHasData[s] == false`. -/
theorem push_waits_on_reserved_slot (T : Type) (N : Nat) (item : T) (q : circular_queue T N)
    (hticket : q.mPushQueue (q.mWritePos % N) = q.mPushTicket (q.mWritePos % N)) :
    ((push item q).outcome = .blocked ↔ q.mHasData (q.mWritePos % N) = true) ∧
    ((push item q).outcome = .pushed →
      q.mHasData (q.mWritePos % N) = false ∧
      (push item q).state.mData (q.mWritePos % N) = item ∧
      (push item q).state.mHasData (q.mWritePos % N) = true) := by
  simp only [push]
  split_ifs <;> simp_all

/-- Witness for C3: a fresh `circular_queue<int, 4>` and item 7. -/
theorem push_waits_on_reserved_slot_witness :
    ((push 7 q0).outcome = .blocked ↔ q0.mHasData (q0.mWritePos % 4) = true) ∧
    ((push 7 q0).outcome = .pushed →
      q0.mHasData (q0.mWritePos % 4) = false ∧
      (push 7 q0).state.mData (q0.mWritePos % 4) = 7 ∧
      (push 7 q0).state.mHasData (q0.mWritePos % 4) = true) :=
  push_waits_on_reserved_slot Nat 4 7 q0 (by decide)

/-- C5: when `pop` returns the exhausted outcome — from the ticket-wait
loop or from the queue-empty wait loop — the serving tickets `mPopTicket`
are not incremented and neither `mHasData` nor the payload array `mData`
is modified by that call (the whole arrays are left untouched). -/
theorem pop_exhausted_no_side_effects (T : Type) (N : Nat) (q : circular_queue T N)
    (h : (pop q).outcome = .exhausted) :
    (pop q).state.mPopTicket = q.mPopTicket ∧
    (pop q).state.mHasData = q.mHasData ∧
    (pop q).state.mData = q.mData := by
  simp only [pop] at h ⊢
  split_ifs at h ⊢ <;> simp_all

/-- Witness for C5: `pop` on the closed empty queue returns exhausted. -/
theorem pop_exhausted_no_side_effects_witness :
    (pop qClosed).state.mPopTicket = qClosed.mPopTicket ∧
    (pop qClosed).state.mHasData = qClosed.mHasData ∧
    (pop qClosed).state.mData = qClosed.mData :=
  pop_exhausted_no_side_effects Nat 4 qClosed (by decide)

/-- C6: every entry to a producer operation (`push`, `pushUnsafe`)
increments `mWritePos` by exactly one (mod 2^32) and every entry to a
consumer operation (`pop`, `popUnsafe`) increments `mReadPos` by exactly
one, regardless of outcome; hence after any sequence of calls on a fresh
queue, `mWritePos` equals the number of producer-operation entries and
`mReadPos` the number of consumer-operation entries, modulo 2^32. -/
theorem counters_count_entries (T : Type) (N : Nat) (d : T) :
    (∀ (item : T) (q : circular_queue T N),
        (push item q).state.mWritePos = (q.mWritePos + 1) % U32 ∧
        (pushUnsafe item q).state.mWritePos = (q.mWritePos + 1) % U32) ∧
    (∀ q : circular_queue T N,
        (pop q).state.mReadPos = (q.mReadPos + 1) % U32 ∧
        (popUnsafe q).state.mReadPos = (q.mReadPos + 1) % U32) ∧
    ∀ ops : List (Op T),
      (run (circular_queue.init T N d) ops).mWritePos = producerCount ops % U32 ∧
      (run (circular_queue.init T N d) ops).mReadPos = consumerCount ops % U32 := by
  refine ⟨fun item q => ⟨push_writePos item q, pushUnsafe_writePos item q⟩,
    fun q => ⟨pop_readPos q, popUnsafe_readPos q⟩, fun ops => ?_⟩
  obtain ⟨hw, hr, hwb, hrb⟩ := run_positions ops (circular_queue.init T N d)
  have h0w : (circular_queue.init T N d).mWritePos = 0 := rfl
  have h0r : (circular_queue.init T N d).mReadPos = 0 := rfl
  have hbw := hwb (by rw [h0w]; simp [U32])
  have hbr := hrb (by rw [h0r]; simp [U32])
  rw [h0w] at hw
  rw [h0r] at hr
  simp only [U32] at *
  constructor <;> omega

/-- C7: `mNoMorePush` is a one-way latch: false at construction, set to
true by `signalNoMorePush`, never modified by any other operation, and
`signalNoMorePush` is idempotent — a repeated call leaves the entire
queue state identical. -/
theorem closed_flag_one_way_latch (T : Type) (N : Nat) (d : T) :
    (circular_queue.init T N d).mNoMorePush = false ∧
    (∀ q : circular_queue T N, (signalNoMorePush q).mNoMorePush = true) ∧
    (∀ q : circular_queue T N, signalNoMorePush (signalNoMorePush q) = signalNoMorePush q) ∧
    (∀ (item : T) (q : circular_queue T N),
        (push item q).state.mNoMorePush = q.mNoMorePush ∧
        (pushUnsafe item q).state.mNoMorePush = q.mNoMorePush) ∧
    ∀ q : circular_queue T N,
        (pop q).state.mNoMorePush = q.mNoMorePush ∧
        (popUnsafe q).state.mNoMorePush = q.mNoMorePush := by
  refine ⟨rfl, fun q => rfl, fun q => rfl, fun item q => ⟨?_, ?_⟩, fun q => ⟨?_, ?_⟩⟩ <;>
    simp only [push, pushUnsafe, pop, popUnsafe] <;> split_ifs <;> rfl

/-- C4: the construction-time static assertion
`(0xFFFFFFFF % size) == (size - 1)` succeeds exactly for those 32-bit
values of `size` with `2^32 % size == 0`, i.e. exactly when `size` is a
power of two between 1 and 2^31; for every other size the check fails
(for `size = 0` the C++ constant expression divides by zero and the
static assertion cannot succeed either). -/
theorem capacityCheck_iff_power_of_two (size : Nat) (h : size < 2 ^ 32) :
    (capacityCheck size = true ↔ 2 ^ 32 % size = 0) ∧
    (capacityCheck size = true ↔ ∃ k, k ≤ 31 ∧ size = 2 ^ k) := by
  have h32 : (2 : Nat) ^ 32 = 4294967296 := by norm_num
  have hcc : capacityCheck size = true ↔ 0xFFFFFFFF % size = size - 1 := by
    simp [capacityCheck]
  have h1 : (0xFFFFFFFF % size = size - 1) ↔ 2 ^ 32 % size = 0 := by
    rcases Nat.eq_zero_or_pos size with hz | hpos
    · subst hz
      norm_num
    · constructor
      · intro hm
        have hd := Nat.div_add_mod 0xFFFFFFFF size
        have he : 2 ^ 32 = size * (0xFFFFFFFF / size + 1) := by
          rw [Nat.mul_add, Nat.mul_one, h32]
          omega
        rw [he]
        exact Nat.mul_mod_right _ _
      · intro hm
        obtain ⟨c, hc⟩ := Nat.dvd_of_mod_eq_zero hm
        rw [h32] at hc
        match c, hc with
        | 0, hc => omega
        | c + 1, hc =>
          rw [Nat.mul_add, Nat.mul_one] at hc
          have he : (0xFFFFFFFF : Nat) = size * c + (size - 1) := by omega
          rw [he, Nat.mul_add_mod]
          exact Nat.mod_eq_of_lt (by omega)
  have h2 : 2 ^ 32 % size = 0 ↔ ∃ k, k ≤ 31 ∧ size = 2 ^ k := by
    constructor
    · intro hm
      have hdvd : size ∣ 2 ^ 32 := Nat.dvd_of_mod_eq_zero hm
      obtain ⟨k, hk, rfl⟩ := (Nat.dvd_prime_pow Nat.prime_two).mp hdvd
      refine ⟨k, ?_, rfl⟩
      by_contra hk31
      have hk32 : k = 32 := by omega
      subst hk32
      omega
    · rintro ⟨k, hk, rfl⟩
      obtain ⟨t, ht⟩ := pow_dvd_pow 2 (show k ≤ 32 by omega)
      rw [ht, Nat.mul_mod_right]
  exact ⟨hcc.trans h1, hcc.trans (h1.trans h2)⟩

/-- Witness for C4 at the default capacity 32 = 2^5. -/
theorem capacityCheck_iff_power_of_two_witness :
    (capacityCheck 32 = true ↔ 2 ^ 32 % 32 = 0) ∧
    (capacityCheck 32 = true ↔ ∃ k, k ≤ 31 ∧ 32 = 2 ^ k) :=
  capacityCheck_iff_power_of_two 32 (by norm_num)

/-- C8 counterexample: `pushUnsafe` does check the closed flag — its
`BOOST_ASSERT(!mNoMorePush)` (line 140 of src/circular_queue.h) fails
after `signalNoMorePush` and passes before, so a call after close does
not proceed exactly as a call before close in a build with assertions
enabled. -/
theorem pushUnsafe_depends_on_closed_flag :
    qClosed = signalNoMorePush q0 ∧
    (pushUnsafe 5 qClosed).assertOk = false ∧
    (pushUnsafe 5 q0).assertOk = true :=
  ⟨rfl, by decide, by decide⟩

/-- C8 as amended: `pushUnsafe`'s only check of the closed flag is the
debug-time assertion `BOOST_ASSERT(!mNoMorePush)` (the same check `push`
has); apart from the assertion verdict the call's behaviour is
independent of the flag — after close it blocks or publishes exactly as
before close, so pushing after close is permitted (undetected) whenever
assertions are disabled. -/
theorem pushUnsafe_closed_check_is_assert_only (T : Type) (N : Nat) (item : T)
    (q : circular_queue T N) :
    (pushUnsafe item (signalNoMorePush q)).assertOk = false ∧
    (pushUnsafe item (signalNoMorePush q)).outcome = (pushUnsafe item q).outcome ∧
    (pushUnsafe item (signalNoMorePush q)).state =
      signalNoMorePush (pushUnsafe item q).state := by
  simp only [pushUnsafe, signalNoMorePush]
  split_ifs <;> simp_all

/-- C9 counterexample: `getQueueLength` is not negative whenever
`mReadPos` exceeds `mWritePos`: with 2^31 + 1 more consumer entries than
producer entries the 32-bit difference reinterprets as the positive
value 2^31 − 1. -/
theorem getQueueLength_positive_despite_more_pops :
    qManyPops.mWritePos < qManyPops.mReadPos ∧ 0 < getQueueLength qManyPops := by
  decide

/-- C9 as amended: `getQueueLength` returns `mWritePos − mReadPos`
computed in 32-bit unsigned arithmetic and reinterpreted as a signed
integer, and depends on (and modifies) nothing but the two position
counters; it equals the true signed difference — in particular it is
negative — whenever `mReadPos` exceeds `mWritePos` by at most 2^31 (for
a larger excess the reinterpretation wraps to a nonnegative value), and
it can exceed the capacity N when producers are stalled against a full
ring. -/
theorem getQueueLength_signed_difference (T : Type) (N : Nat) (q : circular_queue T N)
    (hw : q.mWritePos < U32) (hr : q.mReadPos < U32) :
    (∀ q' : circular_queue T N, q'.mWritePos = q.mWritePos → q'.mReadPos = q.mReadPos →
        getQueueLength q' = getQueueLength q) ∧
    (q.mReadPos ≤ q.mWritePos → q.mWritePos - q.mReadPos < 2 ^ 31 →
        getQueueLength q = (q.mWritePos : Int) - (q.mReadPos : Int)) ∧
    (q.mWritePos < q.mReadPos → q.mReadPos - q.mWritePos ≤ 2 ^ 31 →
        getQueueLength q = (q.mWritePos : Int) - (q.mReadPos : Int) ∧
        getQueueLength q < 0) ∧
    (4 : Int) < getQueueLength qStalled := by
  refine ⟨fun q' h1 h2 => by simp only [getQueueLength, h1, h2], ?_, ?_, by decide⟩
  · intro hle hlt
    simp only [getQueueLength, U32] at *
    split_ifs with hd <;> omega
  · intro hlt hle
    constructor <;> (simp only [getQueueLength, U32] at *; split_ifs with hd <;> omega)

/-- Witness for C9's amended theorem: a queue with one published item
(`mWritePos = 1`, `mReadPos = 0`) has length 1 − 0. -/
theorem getQueueLength_signed_difference_witness :
    getQueueLength qOne = (qOne.mWritePos : Int) - (qOne.mReadPos : Int) :=
  (getQueueLength_signed_difference Nat 4 qOne (by decide) (by decide)).2.1
    (by decide) (by decide)

/-- C10: a successful `pop` on reserved slot `s = mReadPos % N` modifies
only `mReadPos`, `mPopQueue[s]`, `mPopTicket[s]` and `mHasData[s]`: the
payload array `mData` is never written (the popped value remains stored
in its cell), `mWritePos`, `mNoMorePush` and the producer tickets are
untouched, and every other slot's flag and tickets are unchanged.  A
successful `popUnsafe` modifies only `mReadPos` and `mHasData[s]`. -/
theorem pop_success_frame (T : Type) (N : Nat) (q : circular_queue T N) :
    (∀ v, (pop q).outcome = .success v →
      v = q.mData (q.mReadPos % N) ∧
      (pop q).state.mData = q.mData ∧
      (pop q).state.mWritePos = q.mWritePos ∧
      (pop q).state.mNoMorePush = q.mNoMorePush ∧
      (pop q).state.mPushQueue = q.mPushQueue ∧
      (pop q).state.mPushTicket = q.mPushTicket ∧
      (pop q).state.mReadPos = (q.mReadPos + 1) % U32 ∧
      (pop q).state.mHasData (q.mReadPos % N) = false ∧
      ∀ j, j ≠ q.mReadPos % N →
        (pop q).state.mHasData j = q.mHasData j ∧
        (pop q).state.mPopQueue j = q.mPopQueue j ∧
        (pop q).state.mPopTicket j = q.mPopTicket j) ∧
    ∀ v, (popUnsafe q).outcome = .success v →
      v = q.mData (q.mReadPos % N) ∧
      (popUnsafe q).state.mData = q.mData ∧
      (popUnsafe q).state.mWritePos = q.mWritePos ∧
      (popUnsafe q).state.mNoMorePush = q.mNoMorePush ∧
      (popUnsafe q).state.mPushQueue = q.mPushQueue ∧
      (popUnsafe q).state.mPushTicket = q.mPushTicket ∧
      (popUnsafe q).state.mPopQueue = q.mPopQueue ∧
      (popUnsafe q).state.mPopTicket = q.mPopTicket ∧
      (popUnsafe q).state.mReadPos = (q.mReadPos + 1) % U32 ∧
      (popUnsafe q).state.mHasData (q.mReadPos % N) = false ∧
      ∀ j, j ≠ q.mReadPos % N → (popUnsafe q).state.mHasData j = q.mHasData j := by
  constructor
  · intro v h
    simp only [pop] at h ⊢
    split_ifs at h ⊢ with h1 h2 h3
    · refine ⟨by simp_all, rfl, rfl, rfl, rfl, rfl, rfl, by simp,
        fun j hj => ⟨Function.update_noteq hj _ _, Function.update_noteq hj _ _,
          Function.update_noteq hj _ _⟩⟩
  · intro v h
    simp only [popUnsafe] at h ⊢
    split_ifs at h ⊢ with h1 h2
    · refine ⟨by simp_all, rfl, rfl, rfl, rfl, rfl, rfl, rfl, rfl, by simp,
        fun j hj => Function.update_noteq hj _ _⟩

/-- Witness for C10: popping the one-item queue `qOne` succeeds with 7. -/
theorem pop_success_frame_witness :
    7 = qOne.mData (qOne.mReadPos % 4) ∧ (pop qOne).state.mData = qOne.mData :=
  have hframe := (pop_success_frame Nat 4 qOne).1 7 (by decide)
  ⟨hframe.1, hframe.2.1⟩

end CQ
